import Mathlib

/-!
Verification development for the MCP tool registration service
(`mcp_tool_registration_service.py`, Claude sample agent; the CrewAI sample
contains a byte-identical copy of the response decoder).

Strings are embedded as `List Char` (the service decodes each SSE line from
UTF-8 before processing).  Values produced by Python's `json` module are
embedded as the inductive type `Json`.  The Python standard-library functions
`json.loads` and `str` are external to the repository and are passed in as an
oracle (`Stdlib`); theorems assume of them only the properties the claims
presuppose (for example that parsing the serialization of an object returns
that object).
-/

set_option autoImplicit false

namespace A365

/-- Decoded text, as Python sees it after `line.decode('utf-8')`. -/
abbrev Str := List Char

/-- A character stripped by Python's `str.strip()` (whitespace). -/
def wsChar (c : Char) : Bool := c.isWhitespace

/-- Python `str.strip()`: remove leading and trailing whitespace. -/
def pyStrip (s : Str) : Str :=
  ((s.dropWhile wsChar).reverse.dropWhile wsChar).reverse

/-- Python `str.lstrip('/')`. -/
def lstripSlash (s : Str) : Str := s.dropWhile (fun c => c == '/')

/-- Python `str.rstrip('/')`. -/
def rstripSlash (s : Str) : Str := (s.reverse.dropWhile (fun c => c == '/')).reverse

/-- Python `needle in hay` for strings: substring test. -/
def strContains (hay needle : Str) : Bool :=
  (List.range (hay.length + 1)).any (fun i => needle.isPrefixOf (hay.drop i))

/-- A value produced by Python's `json.loads` (object keys are strings). -/
inductive Json where
  | null
  | bool (b : Bool)
  | num (n : Int)
  | str (s : Str)
  | arr (items : List Json)
  | obj (fields : List (Str × Json))

mutual

/-- Python `==` on JSON values. -/
def Json.beq : Json → Json → Bool
  | .null, .null => true
  | .bool a, .bool b => a == b
  | .num a, .num b => a == b
  | .str a, .str b => a == b
  | .arr a, .arr b => Json.beqList a b
  | .obj a, .obj b => Json.beqObj a b
  | _, _ => false

def Json.beqList : List Json → List Json → Bool
  | [], [] => true
  | a :: as, b :: bs => Json.beq a b && Json.beqList as bs
  | _, _ => false

def Json.beqObj : List (Str × Json) → List (Str × Json) → Bool
  | [], [] => true
  | (ka, va) :: as, (kb, vb) :: bs => ka == kb && Json.beq va vb && Json.beqObj as bs
  | _, _ => false

end

/-- Python truthiness of a JSON-decoded value (`if content:`). -/
def pyTruthy : Json → Bool
  | .null => false
  | .bool b => b
  | .num n => n != 0
  | .str s => !s.isEmpty
  | .arr items => !items.isEmpty
  | .obj fields => !fields.isEmpty

/-- Python `len` on a JSON-decoded value; `none` models a `TypeError`. -/
def pyLen : Json → Option Nat
  | .str s => some s.length
  | .arr items => some items.length
  | .obj fields => some fields.length
  | _ => none

/-- Python `key in value` for a string key; `none` models the `TypeError`
raised when `value` is not a container (dict membership is key lookup, list
membership is element equality, string membership is substring test). -/
def pyIn (k : Str) : Json → Option Bool
  | .obj fields => some (fields.any (fun p => p.1 == k))
  | .arr items => some (items.any (fun x => Json.beq x (Json.str k)))
  | .str s => some (strContains s k)
  | _ => none

/-- Python `d.get(key, default)` ; `none` models the `AttributeError` raised
when the receiver is not a dict. -/
def pyDictGet (j : Json) (k : Str) (dflt : Json) : Option Json :=
  match j with
  | .obj fields => some ((((fields.find? (fun p => p.1 == k))).map Prod.snd).getD dflt)
  | _ => none

/-- Python `value[0]`; `none` models the `KeyError`/`TypeError` raised when
the receiver is neither a list nor a string (or is empty). -/
def pyIndex0 : Json → Option Json
  | .arr (x :: _) => some x
  | .str (c :: _) => some (Json.str [c])
  | _ => none

/-- Python iteration `for x in value`; dicts iterate over their keys, strings
over their one-character substrings; `none` models the `TypeError` raised for
non-iterable values. -/
def pyIter : Json → Option (List Json)
  | .arr items => some items
  | .obj fields => some (fields.map (fun p => Json.str p.1))
  | .str s => some (s.map (fun c => Json.str [c]))
  | _ => none

/-- The Python standard library, supplied as an oracle: `loads` models
`json.loads` (`none` is a `json.JSONDecodeError`), `pyStr` models `str()`
applied to a non-string value (its exact rendering is irrelevant to every
claim). -/
structure Stdlib where
  loads : Str → Option Json
  pyStr : Json → Str

/-- Python `str(v)`: the identity on strings, the oracle otherwise. -/
def pyStrTop (lib : Stdlib) : Json → Str
  | .str s => s
  | v => lib.pyStr v

/-! ### `_parse_sse_response` (lines 371-430 of the Claude sample, identical
in the CrewAI sample).  An HTTP response is its `Content-Type` header plus its
body text; `async for line in response.content` yields the body split at
newlines. -/

/-- An HTTP response as seen by `_parse_sse_response`. -/
structure HttpResponse where
  contentType : Str
  body : Str

/-- The body split at newline characters, as yielded by
`async for line in response.content` (each chunk is then `.strip()`ped by the
decoder, so keeping or dropping the terminators is observationally equal). -/
def splitLinesPy : Str → List Str
  | [] => [[]]
  | c :: rest =>
    if c == '\n' then [] :: splitLinesPy rest
    else
      match splitLinesPy rest with
      | [] => [[c]]
      | l :: ls => (c :: l) :: ls

/-- Errors escaping `_parse_sse_response`. -/
inductive SseErr where
  | noValidResponse   -- `Exception("No valid JSON-RPC response found in SSE stream")`
  | typeErrorIn       -- uncaught `TypeError` from the `in` operator on a non-container
  | jsonBodyError     -- `response.json()` failed on the `application/json` branch
deriving DecidableEq

/-- `'result' in parsed or 'error' in parsed`, then `'jsonrpc' in parsed`,
with Python short-circuiting (`none` models an uncaught `TypeError`). -/
def acceptDataLine (parsed : Json) : Option Bool :=
  match pyIn ("result".data) parsed with
  | none => none
  | some true => some true
  | some false =>
    match pyIn ("error".data) parsed with
    | none => none
    | some true => some true
    | some false => pyIn ("jsonrpc".data) parsed

/-- `'result' in parsed or 'jsonrpc' in parsed` for bare-JSON lines
(note: no `'error'` test in this branch of the source). -/
def acceptBareLine (parsed : Json) : Option Bool :=
  match pyIn ("result".data) parsed with
  | none => none
  | some true => some true
  | some false => pyIn ("jsonrpc".data) parsed

/-- The `async for line in response.content` loop of `_parse_sse_response`. -/
def sseLoop (lib : Stdlib) : List Str → Except SseErr Json
  | [] => .error .noValidResponse
  | line :: rest =>
    let lineStr := pyStrip line
    if lineStr.isEmpty || lineStr.head? == some ':' then sseLoop lib rest
    else if ("data:".data).isPrefixOf lineStr then
      let dataStr := pyStrip (lineStr.drop 5)
      if dataStr.isEmpty then sseLoop lib rest
      else
        match lib.loads dataStr with
        | none => sseLoop lib rest
        | some parsed =>
          match acceptDataLine parsed with
          | none => .error .typeErrorIn
          | some true => .ok parsed
          | some false => sseLoop lib rest
    else if lineStr.head? == some '{' then
      match lib.loads lineStr with
      | none => sseLoop lib rest
      | some parsed =>
        match acceptBareLine parsed with
        | none => .error .typeErrorIn
        | some true => .ok parsed
        | some false => sseLoop lib rest
    else sseLoop lib rest

/-- `McpToolRegistrationService._parse_sse_response`. -/
def parseSseResponse (lib : Stdlib) (resp : HttpResponse) : Except SseErr Json :=
  if strContains resp.contentType ("application/json".data) then
    match lib.loads resp.body with
    | some j => .ok j
    | none => .error .jsonBodyError
  else
    sseLoop lib (splitLinesPy resp.body)

/-! ### `_build_full_url` (lines 147-180).  The platform endpoint comes from
`get_mcp_platform_endpoint()` (environment dependent) and is passed explicitly
here. -/

/-- `McpToolRegistrationService._build_full_url`. -/
def buildFullUrl (platformEndpoint serverPath : Str) : Str :=
  if serverPath.isEmpty then []
  else if ("http://".data).isPrefixOf serverPath
       || ("https://".data).isPrefixOf serverPath then serverPath
  else
    let path := lstripSlash serverPath
    let path :=
      if !(("agents/".data).isPrefixOf path) then ("agents/servers/".data) ++ path
      else path
    rstripSlash platformEndpoint ++ '/' :: path

/-! ### Service data model (lines 50-71, 97-98).  `_tools_by_name` is a Python
dict: an insertion-ordered association list where an update replaces the value
of an existing key in place and a fresh key is appended. -/

/-- `MCPToolDefinition` (tool names and JSON-sourced fields keep the dynamic
type `json.loads` gave them). -/
structure MCPToolDefinition where
  name : Json
  description : Json
  input_schema : Json
  server_url : Str
  server_name : Str

/-- `MCPServerConnection`. -/
structure MCPServerConnection where
  name : Str
  url : Str
  headers : List (Str × Str)
  tools : List MCPToolDefinition
  connected : Bool

/-- The mutable service state: `_connected_servers` and `_tools_by_name`. -/
structure ServiceState where
  connected_servers : List MCPServerConnection
  tools_by_name : List (Json × MCPToolDefinition)

/-- The freshly constructed service (`__init__`). -/
def initialState : ServiceState := { connected_servers := [], tools_by_name := [] }

/-- Python dict lookup `d[k]` / `k in d` (first — and only — matching key). -/
def dictLookup (d : List (Json × MCPToolDefinition)) (k : Json) :
    Option MCPToolDefinition :=
  ((d.find? (fun p => Json.beq p.1 k))).map Prod.snd

/-- Python dict update `d[k] = v`: replace in place, else append. -/
def dictInsert (d : List (Json × MCPToolDefinition)) (k : Json)
    (v : MCPToolDefinition) : List (Json × MCPToolDefinition) :=
  if d.any (fun p => Json.beq p.1 k) then
    d.map (fun p => if Json.beq p.1 k then (p.1, v) else p)
  else d ++ [(k, v)]

/-! ### `call_tool` (lines 488-597).  The remote server's behaviour is an
environment `net : Nat → NetOutcome` giving, per attempt, either an HTTP
response or a transport-level failure. -/

/-- What one `session.post` attempt produces. -/
inductive NetOutcome where
  | resp (status : Nat) (contentType : Str) (body : Str)
  | timeout       -- `asyncio.TimeoutError`
  | clientError   -- `aiohttp.ClientError`

/-- Production retry constants (lines 40-41). -/
def MCP_MAX_RETRIES : Nat := 2

def MCP_RETRY_DELAY_SECONDS : Nat := 1

/-- Errors raised by `call_tool`. -/
inductive CallErr where
  | toolNotFound (available : List Json)  -- `ValueError`, message lists `list(keys)[:10]`
  | noConnection (toolName : Str)         -- `ValueError("No connection found ...")`
  | serverError (status : Nat) (body : Str)  -- 502/503/504, kept as `last_error`
  | callFailed (status : Nat) (body : Str)   -- other non-200, raised at once
  | timeoutErr                            -- timeout kept as `last_error`
  | clientErr                             -- `aiohttp.ClientError` kept as `last_error`
  | sseError (e : SseErr)                 -- `_parse_sse_response` raised
  | attrError                             -- `.get` on a non-dict result
  | typeErrorLen                          -- `len` of a non-sized content value
  | keyError                              -- `content[0]` on a non-indexable value
  | noLastError                           -- `Exception("MCP tool call failed")`

/-- What a `call_tool` run did: how many HTTP attempts were issued, which
retry delays were slept, and the outcome (string results are `Json.str`). -/
structure CallTrace where
  requests : Nat
  sleeps : List Nat
  result : Except CallErr Json

/-- Extraction of the tool result from a parsed 200 response
(lines 559-572): `result.get("result", {}).get("content", [])`, then
`content[0]` handling, else `str(result.get("result", ""))`. -/
def extractToolResult (lib : Stdlib) (result : Json) : Except CallErr Json :=
  match pyDictGet result ("result".data) (Json.obj []) with
  | none => .error .attrError
  | some inner =>
    match pyDictGet inner ("content".data) (Json.arr []) with
    | none => .error .attrError
    | some content =>
      let fallback : Except CallErr Json :=
        match pyDictGet result ("result".data) (Json.str []) with
        | none => .error .attrError
        | some v => .ok (Json.str (pyStrTop lib v))
      if pyTruthy content then
        match pyLen content with
        | none => .error .typeErrorLen
        | some n =>
          if n > 0 then
            match pyIndex0 content with
            | none => .error .keyError
            | some firstContent =>
              match firstContent with
              | Json.obj fields =>
                .ok ((((fields.find? (fun p => p.1 == ("text".data)))).map Prod.snd).getD
                      (Json.str (lib.pyStr firstContent)))
              | _ => .ok (Json.str (lib.pyStr firstContent))
          else fallback
      else fallback

/-- The `for attempt in range(MCP_MAX_RETRIES + 1)` loop of `call_tool`
(lines 547-597).  `fuel` is the number of remaining iterations; timeouts and
client errors are caught and recorded as `last_error`, 502/503/504 record
`last_error`, any other non-200 status raises at once, and a 1-second sleep
happens whenever `attempt < MCP_MAX_RETRIES`. -/
def callLoop (lib : Stdlib) (net : Nat → NetOutcome) :
    Nat → Nat → Option CallErr → Nat → List Nat → CallTrace
  | _, 0, lastErr, reqs, sleeps =>
    { requests := reqs, sleeps := sleeps, result := .error (lastErr.getD .noLastError) }
  | attempt, fuel + 1, _lastErr, reqs, sleeps =>
    let afterIter (le : Option CallErr) : CallTrace :=
      if attempt < MCP_MAX_RETRIES then
        callLoop lib net (attempt + 1) fuel le (reqs + 1) (sleeps ++ [MCP_RETRY_DELAY_SECONDS])
      else
        callLoop lib net (attempt + 1) fuel le (reqs + 1) sleeps
    match net attempt with
    | .resp status ct body =>
      if status = 200 then
        match parseSseResponse lib { contentType := ct, body := body } with
        | .error e =>
          { requests := reqs + 1, sleeps := sleeps, result := .error (.sseError e) }
        | .ok result =>
          match extractToolResult lib result with
          | .error e => { requests := reqs + 1, sleeps := sleeps, result := .error e }
          | .ok v => { requests := reqs + 1, sleeps := sleeps, result := .ok v }
      else if status = 502 ∨ status = 503 ∨ status = 504 then
        afterIter (some (.serverError status body))
      else
        { requests := reqs + 1, sleeps := sleeps, result := .error (.callFailed status body) }
    | .timeout => afterIter (some .timeoutErr)
    | .clientError => afterIter (some .clientErr)

/-- `McpToolRegistrationService.call_tool`. -/
def call_tool (lib : Stdlib) (st : ServiceState) (toolName : Str)
    (net : Nat → NetOutcome) : CallTrace :=
  match dictLookup st.tools_by_name (Json.str toolName) with
  | none =>
    { requests := 0, sleeps := []
      result := .error (.toolNotFound ((st.tools_by_name.map Prod.fst).take 10)) }
  | some tool =>
    match st.connected_servers.find? (fun c => c.url == tool.server_url) with
    | none =>
      { requests := 0, sleeps := [], result := .error (.noConnection toolName) }
    | some _ => callLoop lib net 0 (MCP_MAX_RETRIES + 1) none 0 []

/-! ### `_list_server_tools` (lines 432-486) and `_connect_to_server`
(lines 318-369).  All exceptions escaping `_list_server_tools` are caught by
`_connect_to_server`, which returns `None`; the distinct causes are therefore
collapsed to `Except Unit`. -/

/-- The per-tool body of the `for tool_data in tools_data` loop: `.get` with
defaults on each tool record; a non-dict element raises (`AttributeError`). -/
def toolDefsOf (server_url server_name : Str) : List Json →
    Except Unit (List MCPToolDefinition)
  | [] => .ok []
  | toolData :: rest =>
    match toolData with
    | Json.obj fields =>
      let tool : MCPToolDefinition :=
        { name := ((((fields.find? (fun p => p.1 == ("name".data)))).map Prod.snd).getD
            (Json.str []))
          description := ((((fields.find? (fun p => p.1 == ("description".data)))).map
            Prod.snd).getD (Json.str []))
          input_schema := ((((fields.find? (fun p => p.1 == ("inputSchema".data)))).map
            Prod.snd).getD (Json.obj []))
          server_url := server_url
          server_name := server_name }
      match toolDefsOf server_url server_name rest with
      | .ok tools => .ok (tool :: tools)
      | .error e => .error e
    | _ => .error ()

/-- `McpToolRegistrationService._list_server_tools`: POST `tools/list`, parse
the response, extract `result.get("result", {}).get("tools", [])`, and build
one `MCPToolDefinition` per entry; any non-200 status raises. -/
def listServerTools (lib : Stdlib) (server_url server_name : Str)
    (outcome : NetOutcome) : Except Unit (List MCPToolDefinition) :=
  match outcome with
  | .timeout => .error ()
  | .clientError => .error ()
  | .resp status ct body =>
    if status = 200 then
      match parseSseResponse lib { contentType := ct, body := body } with
      | .error _ => .error ()
      | .ok result =>
        match pyDictGet result ("result".data) (Json.obj []) with
        | none => .error ()
        | some inner =>
          match pyDictGet inner ("tools".data) (Json.arr []) with
          | none => .error ()
          | some toolsJson =>
            match pyIter toolsJson with
            | none => .error ()
            | some items => toolDefsOf server_url server_name items
    else .error ()

/-- Header-name and value constants.  Modelled from the spec: the
`Constants.Headers` values of the external `microsoft_agents_a365` package are
not part of this repository; the spec fixes the built headers to
`Authorization: Bearer <token>`, a descriptive user-agent tag, and
`Content-Type: application/json`. -/
def authorizationHeaderName : Str := "Authorization".data

/-- Modelled from the spec: the bearer scheme prefix of the external
`Constants.Headers.BEARER_PREFIX`. -/
def bearerTokenScheme : Str := "Bearer".data

/-- The user-agent tag, `f"Claude-Agent-SDK/1.0 ({self._orchestrator_name})"`
with `_orchestrator_name = "Claude"`. -/
def claudeUserAgent : Str := "Claude-Agent-SDK/1.0 (Claude)".data

/-- What `_connect_to_server` did: the connection (or `None`), the headers
dict it built (`none` when the remote-without-token guard returned early), and
how many HTTP requests were issued. -/
structure ConnectResult where
  conn : Option MCPServerConnection
  headersBuilt : Option (List (Str × Str))
  requests : Nat

/-- The `is_local` test of `_connect_to_server` (line 336): a scheme-sensitive
string-prefix check, not a host comparison. -/
def isLocalUrl (url : Str) : Bool :=
  ("http://localhost".data).isPrefixOf url || ("http://127.0.0.1".data).isPrefixOf url

/-- `McpToolRegistrationService._connect_to_server`. -/
def connectToServer (lib : Stdlib) (name url authToken : Str)
    (outcome : NetOutcome) : ConnectResult :=
  if isLocalUrl url then
    let headers : List (Str × Str) := [("Content-Type".data, "application/json".data)]
    match listServerTools lib url name outcome with
    | .ok tools =>
      { conn := some { name := name, url := url, headers := headers, tools := tools
                       connected := true }
        headersBuilt := some headers, requests := 1 }
    | .error _ => { conn := none, headersBuilt := some headers, requests := 1 }
  else if authToken.isEmpty then
    { conn := none, headersBuilt := none, requests := 0 }
  else
    let headers : List (Str × Str) :=
      [(authorizationHeaderName, bearerTokenScheme ++ ' ' :: authToken),
       ("User-Agent".data, claudeUserAgent),
       ("Content-Type".data, "application/json".data)]
    match listServerTools lib url name outcome with
    | .ok tools =>
      { conn := some { name := name, url := url, headers := headers, tools := tools
                       connected := true }
        headersBuilt := some headers, requests := 1 }
    | .error _ => { conn := none, headersBuilt := some headers, requests := 1 }

/-! ### Discovery (`discover_and_connect_servers`, lines 182-316, and
`_load_manifest_servers_fallback`, lines 102-145). -/

/-- Python `a or b` on optional strings: `a` when it is truthy (present and
non-empty), otherwise `b`. -/
def pyOrStr (a b : Option Str) : Option Str :=
  match a with
  | some s => if s.isEmpty then b else some s
  | none => b

/-- One record returned by `McpToolServerConfigurationService.list_tool_servers`
(an external SDK object, read through `getattr(config, ..., None)` probes:
`none` is a missing or `None` attribute). -/
structure SdkConfig where
  url : Option Str
  server_url : Option Str
  endpoint : Option Str
  mcp_server_name : Option Str
  mcp_server_unique_name : Option Str
  name : Option Str

/-- A `{"name": ..., "url": ...}` entry of `mcp_server_configs`. -/
structure SrvConfig where
  name : Str
  url : Str

/-- The per-config body of the SDK discovery loop (lines 248-271). -/
def sdkConfigEntry (platformEndpoint : Str) (c : SdkConfig) : Option SrvConfig :=
  let serverUrl0 := pyOrStr (pyOrStr c.url c.server_url) c.endpoint
  let serverName := (pyOrStr (pyOrStr c.mcp_server_name c.mcp_server_unique_name)
    (some (c.name.getD ("unknown".data)))).getD []
  let serverUrl :=
    match serverUrl0 with
    | some s => if s.isEmpty then (pyOrStr c.mcp_server_unique_name (some serverName)).getD []
                else s
    | none => (pyOrStr c.mcp_server_unique_name (some serverName)).getD []
  let fullUrl := buildFullUrl platformEndpoint serverUrl
  if fullUrl.isEmpty then none else some { name := serverName, url := fullUrl }

/-- `mcp_server_configs` as assembled from the SDK's records. -/
def sdkConfigEntries (platformEndpoint : Str) (cs : List SdkConfig) : List SrvConfig :=
  cs.filterMap (sdkConfigEntry platformEndpoint)

/-- One record of the `mcpServers` array of `ToolingManifest.json` (`none`
marks an absent key, so that `dict.get` defaults apply). -/
structure ManifestServer where
  mcpServerName : Option Str
  mcpServerUniqueName : Option Str
  url : Option Str
  scope : Option Str
  audience : Option Str

/-- The state of `ToolingManifest.json` in the working directory.
`unreadable` covers an existing file that `open`/`json.load` (or the
subsequent field access) raises on — the handler catches the exception and
returns the servers collected so far, which is none. -/
inductive ManifestEnv where
  | missing
  | unreadable
  | loaded (servers : List ManifestServer)

/-- `McpToolRegistrationService._load_manifest_servers_fallback` (the `scope`
and `audience` fields are stored but never read by the connection loop). -/
def loadManifestServersFallback : ManifestEnv → List SrvConfig
  | .missing => []
  | .unreadable => []
  | .loaded servers =>
    servers.filterMap (fun s =>
      let url := s.url.getD []
      if url.isEmpty then none
      else some { name := s.mcpServerName.getD (s.mcpServerUniqueName.getD ("unknown".data))
                  url := url })

/-- The environment a discovery pass runs against: the token-exchange result,
the `BEARER_TOKEN` environment variable, the platform endpoint, the SDK
configuration-service result, the manifest file, and the per-server network
behaviour of the `tools/list` probe (indexed by connection-attempt order). -/
structure DiscoveryEnv where
  tokenExchange : Except Unit (Option Str)
  bearerEnv : Option Str
  platformEndpoint : Str
  sdk : Except Unit (List SdkConfig)
  manifest : ManifestEnv
  net : Nat → NetOutcome

/-- The token-resolution preamble of `discover_and_connect_servers`
(lines 206-232): provided token, else token exchange (exceptions swallowed),
else `BEARER_TOKEN` (ignoring the placeholder value), else the empty token. -/
def resolveAuthToken (env : DiscoveryEnv) (provided : Option Str) : Str :=
  let t0 : Option Str :=
    match provided with
    | some s => if s.isEmpty then none else some s
    | none => none
  let t1 : Option Str :=
    match t0 with
    | some s => some s
    | none =>
      match env.tokenExchange with
      | .ok (some tok) => if tok.isEmpty then none else some tok
      | _ => none
  let t2 : Option Str :=
    match t1 with
    | some s => some s
    | none =>
      match env.bearerEnv with
      | some b =>
        if !b.isEmpty && b != ("your_bearer_token_here".data) then some b else none
      | none => none
  t2.getD []

/-- The state update of one successful iteration of the discovery loop
(lines 297-302): append the connection and index its tools by name. -/
def stAfter (st : ServiceState) (conn : MCPServerConnection) : ServiceState :=
  { connected_servers := st.connected_servers ++ [conn]
    tools_by_name := conn.tools.foldl (fun d t => dictInsert d t.name t)
      st.tools_by_name }

/-- The `for server_config in mcp_server_configs` loop (lines 288-313):
connect to each server; on success append the connection, extend the flat
tool list, and index every tool by name; failures are skipped. -/
def connectLoop (lib : Stdlib) (authToken : Str) (net : Nat → NetOutcome) :
    List SrvConfig → Nat → ServiceState → List MCPToolDefinition × ServiceState
  | [], _, st => ([], st)
  | c :: rest, i, st =>
    match (connectToServer lib c.name c.url authToken (net i)).conn with
    | some conn =>
      if conn.connected then
        let (ts, st'') := connectLoop lib authToken net rest (i + 1) (stAfter st conn)
        (conn.tools ++ ts, st'')
      else connectLoop lib authToken net rest (i + 1) st
    | none => connectLoop lib authToken net rest (i + 1) st

/-- `McpToolRegistrationService.discover_and_connect_servers`: resolve a
token, list servers through the SDK (exceptions yield no configs), fall back
to the manifest when no configs were found, then run the connection loop over
the starting state `st0`. -/
def discoverAndConnectServers (lib : Stdlib) (env : DiscoveryEnv)
    (provided : Option Str) (st0 : ServiceState) :
    List MCPToolDefinition × ServiceState :=
  let authToken := resolveAuthToken env provided
  let cfgs0 :=
    match env.sdk with
    | .ok cs => sdkConfigEntries env.platformEndpoint cs
    | .error _ => []
  let cfgs := if cfgs0.isEmpty then loadManifestServersFallback env.manifest else cfgs0
  connectLoop lib authToken env.net cfgs 0 st0

/-! ### Concrete instantiation material.  A small table-driven `json.loads`
oracle and a one-tool service state, used to evaluate the theorems at
concrete inputs. -/

/-- A bare JSON object line whose only key is `error`. -/
def demoBareErrorLine : Str := ("\x7b\"error\": 0\x7d").data

/-- The serialization of `\x7b"result": 7\x7d`. -/
def demoResultBody : Str := ("\x7b\"result\": 7\x7d").data

/-- The parsed form of `demoResultBody`. -/
def demoResultJson : Json := Json.obj [(("result".data), Json.num 7)]

/-- A `tools/call` success body: `result.content[0].text = "sent"`. -/
def demoCallBody : Str :=
  ("\x7b\"result\": \x7b\"content\": [\x7b\"text\": \"sent\"\x7d]\x7d\x7d").data

/-- The parsed form of `demoCallBody`. -/
def demoCallJson : Json :=
  Json.obj [(("result".data),
    Json.obj [(("content".data),
      Json.arr [Json.obj [(("text".data), Json.str ("sent".data))]])])]

/-- The concrete parse table of the demo oracle. -/
def demoTable : List (Str × Json) :=
  [(demoBareErrorLine, Json.obj [(("error".data), Json.num 0)]),
   (demoResultBody, demoResultJson),
   (demoCallBody, demoCallJson)]

/-- A table-driven `json.loads`. -/
def demoLoads (s : Str) : Option Json :=
  ((demoTable.find? (fun p => p.1 == s))).map Prod.snd

/-- The demo standard-library oracle (`str()` of non-strings is never reached
by the concrete runs below). -/
def demoLib : Stdlib := { loads := demoLoads, pyStr := fun _ => [] }

/-- A one-tool, one-connection service state, as left by a successful
discovery of the single tool `do_it`. -/
def demoServerUrl : Str := ("http://localhost:9000".data)

/-- The demo tool definition. -/
def demoTool : MCPToolDefinition :=
  { name := Json.str ("do_it".data), description := Json.str []
    input_schema := Json.obj [], server_url := demoServerUrl
    server_name := ("Demo".data) }

/-- The demo connection owning `demoTool`. -/
def demoConn : MCPServerConnection :=
  { name := ("Demo".data), url := demoServerUrl
    headers := [(("Content-Type".data), ("application/json".data))]
    tools := [demoTool], connected := true }

/-- The demo service state. -/
def demoState : ServiceState :=
  { connected_servers := [demoConn]
    tools_by_name := [(Json.str ("do_it".data), demoTool)] }

/-- A server that 503s twice and then answers 200 with `demoCallBody`. -/
def demoNetRetry : Nat → NetOutcome := fun i =>
  if i = 2 then .resp 200 ("application/json".data) demoCallBody
  else .resp 503 [] []

/-- A server that always answers 503. -/
def demoNet503 : Nat → NetOutcome := fun _ => .resp 503 [] ("busy".data)

/-- A server that always answers 404. -/
def demoNet404 : Nat → NetOutcome := fun _ => .resp 404 [] ("nope".data)

/-- A server that always times out. -/
def demoNetTimeout : Nat → NetOutcome := fun _ => .timeout

/-- The `tools/list` JSON-RPC result exposing one tool `name` with the given
`description` and `inputSchema`. -/
def listToolsRpc (n : Str) (d s : Json) : Json :=
  Json.obj [(("result".data),
    Json.obj [(("tools".data),
      Json.arr [Json.obj [(("name".data), Json.str n),
                          (("description".data), d),
                          (("inputSchema".data), s)]])])]

/-- First colliding server's URL. -/
def c6url1 : Str := ("https://one.example/mcp".data)

/-- Second colliding server's URL. -/
def c6url2 : Str := ("https://two.example/mcp".data)

/-- SDK record of the first colliding server. -/
def c6cfg1 : SdkConfig :=
  { url := some c6url1, server_url := none, endpoint := none
    mcp_server_name := some ("S1".data), mcp_server_unique_name := none, name := none }

/-- SDK record of the second colliding server. -/
def c6cfg2 : SdkConfig :=
  { url := some c6url2, server_url := none, endpoint := none
    mcp_server_name := some ("S2".data), mcp_server_unique_name := none, name := none }

/-- The discovery environment of the collision scenario: the SDK lists the two
servers and each answers its `tools/list` probe with `200 application/json`
and the given body. -/
def c6env (b1 b2 : Str) : DiscoveryEnv :=
  { tokenExchange := .error (), bearerEnv := none, platformEndpoint := []
    sdk := .ok [c6cfg1, c6cfg2], manifest := .missing
    net := fun i => if i = 0 then .resp 200 ("application/json".data) b1
                    else .resp 200 ("application/json".data) b2 }

/-- The tool definition discovery builds from the first server's listing. -/
def c6tool1 (n : Str) (d s : Json) : MCPToolDefinition :=
  { name := Json.str n, description := d, input_schema := s
    server_url := c6url1, server_name := ("S1".data) }

/-- The tool definition discovery builds from the second server's listing. -/
def c6tool2 (n : Str) (d s : Json) : MCPToolDefinition :=
  { name := Json.str n, description := d, input_schema := s
    server_url := c6url2, server_name := ("S2".data) }

/-- The remote headers built for the collision scenario's token. -/
def c6headers : List (Str × Str) :=
  [(authorizationHeaderName, bearerTokenScheme ++ ' ' :: ("tok".data)),
   (("User-Agent".data), claudeUserAgent),
   (("Content-Type".data), ("application/json".data))]

/-- The connection discovery records for the first colliding server. -/
def c6conn1 (n : Str) (d s : Json) : MCPServerConnection :=
  { name := ("S1".data), url := c6url1, headers := c6headers
    tools := [c6tool1 n d s], connected := true }

/-- The connection discovery records for the second colliding server. -/
def c6conn2 (n : Str) (d s : Json) : MCPServerConnection :=
  { name := ("S2".data), url := c6url2, headers := c6headers
    tools := [c6tool2 n d s], connected := true }

/-- Concrete `tools/list` body of the first server: one tool `search`. -/
def c6body1 : Str :=
  ("\x7b\"result\": \x7b\"tools\": [\x7b\"name\": \"search\", \"description\": \"one\", \"inputSchema\": \x7b\x7d\x7d]\x7d\x7d").data

/-- Concrete `tools/list` body of the second server: one tool `search`. -/
def c6body2 : Str :=
  ("\x7b\"result\": \x7b\"tools\": [\x7b\"name\": \"search\", \"description\": \"two\", \"inputSchema\": \x7b\x7d\x7d]\x7d\x7d").data

/-- A `json.loads` oracle for the two collision-scenario bodies. -/
def c6lib : Stdlib :=
  { loads := fun s =>
      if s == c6body1 then
        some (listToolsRpc ("search".data) (Json.str ("one".data)) (Json.obj []))
      else if s == c6body2 then
        some (listToolsRpc ("search".data) (Json.str ("two".data)) (Json.obj []))
      else none
    pyStr := fun _ => [] }

/-- Every indexed tool's `server_url` is the url of some recorded
connection. -/
def stateUrlInv (st : ServiceState) : Prop :=
  ∀ pr ∈ st.tools_by_name, ∃ c ∈ st.connected_servers, c.url = pr.2.server_url

/-- A discovery environment where the configuration-service lookup raises and
`ToolingManifest.json` is absent. -/
def c7env : DiscoveryEnv :=
  { tokenExchange := .error (), bearerEnv := none, platformEndpoint := []
    sdk := .error (), manifest := .missing, net := fun _ => .timeout }

/-! ## Helper lemmas -/

theorem dropWhile_append_eq_self (p : Char → Bool) (l x : Str) (hne : l ≠ [])
    (h : l.dropWhile p = l) : (l ++ x).dropWhile p = l ++ x := by
  cases l with
  | nil => exact absurd rfl hne
  | cons c t =>
    rw [List.dropWhile_cons] at h
    cases hp : p c with
    | true =>
      rw [hp, if_pos rfl] at h
      have hlen := List.Sublist.length_le (List.dropWhile_sublist (p := p) (l := t))
      rw [h] at hlen
      simp at hlen
    | false => simp [List.dropWhile_cons, hp]

theorem pyStrip_eq_self (s : Str) (hLead : s.dropWhile wsChar = s)
    (hTrail : s.reverse.dropWhile wsChar = s.reverse) : pyStrip s = s := by
  unfold pyStrip
  rw [hLead, hTrail, List.reverse_reverse]

theorem splitLinesPy_single (s : Str) (h : ∀ c ∈ s, c ≠ '\n') :
    splitLinesPy s = [s] := by
  induction s with
  | nil => rfl
  | cons c t ih =>
    have hc : (c == '\n') = false := by
      simpa using h c (List.mem_cons_self c t)
    rw [splitLinesPy, if_neg (by simp [hc]),
      ih (fun x hx => h x (List.mem_cons_of_mem c hx))]

/-! ## C9 — `_build_full_url` -/

/-- **C9**: `_build_full_url` returns the empty string for an empty input;
returns any input starting with `http://` or `https://` unchanged; and for any
other input, after stripping leading slashes, returns
`\x7bbase\x7d/agents/servers/\x7bpath\x7d` when the stripped path does not
start with `agents/`, and `\x7bbase\x7d/\x7bpath\x7d` when it does, where
`base` is the platform endpoint with trailing slashes stripped. -/
theorem buildFullUrl_spec (endpoint sp : Str) :
    (sp = [] → buildFullUrl endpoint sp = []) ∧
    ((("http://".data).isPrefixOf sp = true ∨ ("https://".data).isPrefixOf sp = true) →
      buildFullUrl endpoint sp = sp) ∧
    (sp ≠ [] → ("http://".data).isPrefixOf sp = false →
      ("https://".data).isPrefixOf sp = false →
      ((("agents/".data).isPrefixOf (lstripSlash sp) = false →
        buildFullUrl endpoint sp =
          rstripSlash endpoint ++ ("/agents/servers/".data) ++ lstripSlash sp) ∧
       (("agents/".data).isPrefixOf (lstripSlash sp) = true →
        buildFullUrl endpoint sp = rstripSlash endpoint ++ ('/' :: lstripSlash sp)))) := by
  refine ⟨fun h => by simp [buildFullUrl, h], fun h => ?_, fun hne h1 h2 => ⟨fun hp => ?_, fun hp => ?_⟩⟩
  · have hne : sp ≠ [] := by
      rintro rfl
      rcases h with h | h <;> simp [List.isPrefixOf] at h
    rcases h with h | h <;> simp [buildFullUrl, List.isEmpty_iff, hne, h]
  · have hsl : ("/agents/servers/".data) = '/' :: ("agents/servers/".data) := rfl
    simp only [buildFullUrl, List.isEmpty_iff, hne, if_false, h1, h2, hp,
      Bool.false_eq_true, Bool.or_self, Bool.not_false, if_true, hsl,
      List.append_assoc, List.cons_append, List.nil_append]
  · simp [buildFullUrl, List.isEmpty_iff, hne, h1, h2, hp]

/-- Witness for C9 at the manifest-style bare server name `mcp_MailTools`. -/
theorem buildFullUrl_spec_witness :
    buildFullUrl ("https://agent365.svc.cloud.microsoft/".data) ("mcp_MailTools".data) =
      rstripSlash ("https://agent365.svc.cloud.microsoft/".data) ++
        ("/agents/servers/".data) ++ lstripSlash ("mcp_MailTools".data) :=
  (buildFullUrl_spec ("https://agent365.svc.cloud.microsoft/".data)
    ("mcp_MailTools".data)).2.2 (by decide) (by decide) (by decide) |>.1 (by decide)

/-! ## C5 — unknown tool name fails locally -/

/-- **C5**: calling `call_tool` with a tool name absent from `_tools_by_name`
raises a `ValueError` immediately, with zero network requests, and the error
carries at most the first 10 available tool names. -/
theorem call_tool_unknown (lib : Stdlib) (st : ServiceState) (n : Str)
    (net : Nat → NetOutcome)
    (h : dictLookup st.tools_by_name (Json.str n) = none) :
    call_tool lib st n net =
      { requests := 0, sleeps := []
        result := .error (.toolNotFound ((st.tools_by_name.map Prod.fst).take 10)) } ∧
    ((st.tools_by_name.map Prod.fst).take 10).length ≤ 10 := by
  refine ⟨?_, List.length_take_le 10 _⟩
  unfold call_tool
  rw [h]

/-- Witness for C5: the unknown name `missing` on the one-tool demo state. -/
theorem call_tool_unknown_witness :
    call_tool demoLib demoState ("missing".data) demoNetTimeout =
      { requests := 0, sleeps := []
        result := .error (.toolNotFound [Json.str ("do_it".data)]) } ∧
    ([Json.str ("do_it".data)] : List Json).length ≤ 10 :=
  call_tool_unknown demoLib demoState ("missing".data) demoNetTimeout rfl

/-! ## C1 — the SSE response decoder -/

/-- **C1 counterexample**: a stream whose single line is the bare JSON object
`\x7b"error": 0\x7d` — no `data:` prefix, parses as JSON, and contains an
`error` key.  The claim says bare JSON lines are accepted under the same
rule as `data:` lines (`result`, `error`, or `jsonrpc` key), so this object
should be accepted; the source's bare-line branch (line 421) tests only
`result` and `jsonrpc`, so the decoder instead reaches the end of the stream
and raises the parse error. -/
theorem sse_bare_error_line_rejected :
    demoLoads demoBareErrorLine = some (Json.obj [(("error".data), Json.num 0)]) ∧
    parseSseResponse demoLib
        { contentType := ("text/event-stream".data), body := demoBareErrorLine } =
      .error .noValidResponse := by
  constructor <;> rfl

/-- **C1 amended**: the decoder, on a response whose `Content-Type` does not
contain `application/json`, reads the body line by line, skips blank lines and
lines starting with `:`, accepts the first `data:`-prefixed line whose
stripped payload parses as JSON and contains a `result`, `error`, or `jsonrpc`
key (stopping further reading), and skips non-qualifying `data:` lines; lines
that are bare JSON objects are accepted only when they contain a `result` or
a `jsonrpc` key — an `error` key alone does not qualify there; and if no
qualifying object is found before the stream ends, the decoder raises a parse
error. -/
theorem sse_decoder_amended (lib : Stdlib) :
    (∀ resp : HttpResponse,
      strContains resp.contentType ("application/json".data) = false →
      parseSseResponse lib resp = sseLoop lib (splitLinesPy resp.body)) ∧
    (sseLoop lib [] = .error .noValidResponse) ∧
    (∀ line rest, (pyStrip line = [] ∨ (pyStrip line).head? = some ':') →
      sseLoop lib (line :: rest) = sseLoop lib rest) ∧
    (∀ line rest payload parsed,
      pyStrip line = ("data:".data) ++ payload →
      pyStrip payload ≠ [] →
      lib.loads (pyStrip payload) = some parsed →
      acceptDataLine parsed = some true →
      sseLoop lib (line :: rest) = .ok parsed) ∧
    (∀ line rest payload,
      pyStrip line = ("data:".data) ++ payload →
      (pyStrip payload = [] ∨ lib.loads (pyStrip payload) = none ∨
        (∃ parsed, lib.loads (pyStrip payload) = some parsed ∧
          acceptDataLine parsed = some false)) →
      sseLoop lib (line :: rest) = sseLoop lib rest) ∧
    (∀ line rest tl parsed,
      pyStrip line = '{' :: tl →
      lib.loads ('{' :: tl) = some parsed →
      acceptBareLine parsed = some true →
      sseLoop lib (line :: rest) = .ok parsed) ∧
    (∀ fields, acceptDataLine (Json.obj fields) =
      some (fields.any (fun p => p.1 == ("result".data)) ||
            fields.any (fun p => p.1 == ("error".data)) ||
            fields.any (fun p => p.1 == ("jsonrpc".data)))) ∧
    (∀ fields, acceptBareLine (Json.obj fields) =
      some (fields.any (fun p => p.1 == ("result".data)) ||
            fields.any (fun p => p.1 == ("jsonrpc".data)))) := by
  have hd : ("data:".data) = ['d', 'a', 't', 'a', ':'] := rfl
  refine ⟨?_, rfl, ?_, ?_, ?_, ?_, ?_, ?_⟩
  · intro resp h
    unfold parseSseResponse
    rw [if_neg (by simp [h])]
  · intro line rest h
    rcases h with h | h <;> simp [sseLoop, h]
  · intro line rest payload parsed hstrip hne hloads hacc
    rw [hd] at hstrip
    simp [sseLoop, hstrip, List.isPrefixOf, List.isEmpty_iff, hne, hloads, hacc]
  · intro line rest payload h hcase
    rw [hd] at h
    rcases hcase with hcase | hcase | ⟨parsed, h1, h2⟩ <;>
      simp [sseLoop, h, List.isPrefixOf, List.isEmpty_iff, *]
  · intro line rest tl parsed hstrip hloads hacc
    simp [sseLoop, hstrip, List.isPrefixOf, hloads, hacc]
  · intro fields
    cases h1 : fields.any (fun p => p.1 == ("result".data)) <;>
      cases h2 : fields.any (fun p => p.1 == ("error".data)) <;>
        cases h3 : fields.any (fun p => p.1 == ("jsonrpc".data)) <;>
          simp [acceptDataLine, pyIn, h1, h2, h3]
  · intro fields
    cases h1 : fields.any (fun p => p.1 == ("result".data)) <;>
      cases h3 : fields.any (fun p => p.1 == ("jsonrpc".data)) <;>
        simp [acceptBareLine, pyIn, h1, h3]

/-- Witness for the amended C1: the single SSE line
`data: \x7b"result": 7\x7d` is accepted with the parsed object. -/
theorem sse_decoder_amended_witness :
    sseLoop demoLib [("data: \x7b\"result\": 7\x7d").data] = .ok demoResultJson :=
  (sse_decoder_amended demoLib).2.2.2.1 (("data: \x7b\"result\": 7\x7d").data) []
    (' ' :: demoResultBody) demoResultJson rfl (by decide) rfl rfl

/-! ## C2 — SSE vs JSON equivalence -/

/-- **C2**: for a fixed JSON-RPC result object (an object with a `result`
key) whose serialization `s` parses back to it, decoding a
`Content-Type: application/json` response with body `s` and decoding a
`text/event-stream` response whose single line is `data: ` followed by `s`
yield the same parsed object.  (The serialization hypotheses — non-empty, no
surrounding whitespace, no newline — hold of every `json.dumps` output.) -/
theorem sse_json_equivalence (lib : Stdlib) (s : Str) (fields : List (Str × Json))
    (hparse : lib.loads s = some (Json.obj fields))
    (hkey : fields.any (fun p => p.1 == ("result".data)) = true)
    (hne : s ≠ [])
    (hLead : s.dropWhile wsChar = s)
    (hTrail : s.reverse.dropWhile wsChar = s.reverse)
    (hNoNl : ∀ c ∈ s, c ≠ '\n') :
    parseSseResponse lib { contentType := ("application/json".data), body := s } =
      .ok (Json.obj fields) ∧
    parseSseResponse lib
        { contentType := ("text/event-stream".data)
          body := ("data: ".data) ++ s } =
      .ok (Json.obj fields) := by
  have hctj : strContains ("application/json".data) ("application/json".data) = true := by
    decide
  have hcts : strContains ("text/event-stream".data) ("application/json".data) = false := by
    decide
  constructor
  · simp [parseSseResponse, hctj, hparse]
  · simp only [parseSseResponse, hcts, Bool.false_eq_true, if_false]
    have hmem : ∀ c ∈ ("data: ".data) ++ s, c ≠ '\n' := by
      intro c hc
      rcases List.mem_append.mp hc with h | h
      · have h' : c = 'd' ∨ c = 'a' ∨ c = 't' ∨ c = 'a' ∨ c = ':' ∨ c = ' ' := by
          simpa using h
        rcases h' with rfl | rfl | rfl | rfl | rfl | rfl <;> decide
      · exact hNoNl c h
    rw [splitLinesPy_single _ hmem]
    have hlead' : (("data: ".data) ++ s).dropWhile wsChar = ("data: ".data) ++ s :=
      dropWhile_append_eq_self wsChar _ s (by decide) (by decide)
    have hrevne : s.reverse ≠ [] := by
      simpa [List.reverse_eq_nil_iff] using hne
    have hstrip : pyStrip ('d' :: 'a' :: 't' :: 'a' :: ':' :: ' ' :: s) =
        'd' :: 'a' :: 't' :: 'a' :: ':' :: ' ' :: s := by
      have h0 : ('d' :: 'a' :: 't' :: 'a' :: ':' :: ' ' :: s : Str) =
          ("data: ".data) ++ s := rfl
      rw [h0]
      unfold pyStrip
      rw [hlead', List.reverse_append,
        dropWhile_append_eq_self wsChar _ _ hrevne hTrail,
        List.reverse_append, List.reverse_reverse, List.reverse_reverse]
    have hstrip2 : pyStrip (' ' :: s) = s := by
      unfold pyStrip
      rw [List.dropWhile_cons, if_pos (by decide), hLead, hTrail, List.reverse_reverse]
    show sseLoop lib ['d' :: 'a' :: 't' :: 'a' :: ':' :: ' ' :: s] =
      .ok (Json.obj fields)
    simp [sseLoop, hstrip, hstrip2, List.isPrefixOf, List.isEmpty_iff, hne, hparse,
      acceptDataLine, pyIn, hkey]

/-- Witness for C2 at the concrete result object `\x7b"result": 7\x7d`. -/
theorem sse_json_equivalence_witness :
    parseSseResponse demoLib
        { contentType := ("application/json".data), body := demoResultBody } =
      .ok demoResultJson ∧
    parseSseResponse demoLib
        { contentType := ("text/event-stream".data)
          body := ("data: ".data) ++ demoResultBody } =
      .ok demoResultJson :=
  sse_json_equivalence demoLib demoResultBody [(("result".data), Json.num 7)]
    rfl rfl (by decide) (by decide) (by decide) (by decide)

/-! ## C3 — retry boundary for 502/503/504 -/

/-- **C3**: for a known tool, a server that 503s on the first two attempts
and answers 200 with a valid result on the third makes `call_tool` succeed on
the third attempt; a server answering 502/503/504 on all three allowed
attempts makes `call_tool` issue exactly 3 attempts, sleeping the fixed
1-second delay between attempts, and then raise the last encountered
error. -/
theorem call_tool_retry_boundary (lib : Stdlib) (st : ServiceState) (n : Str)
    (tool : MCPToolDefinition) (conn : MCPServerConnection)
    (hLookup : dictLookup st.tools_by_name (Json.str n) = some tool)
    (hConn : st.connected_servers.find? (fun c => c.url == tool.server_url) = some conn) :
    (∀ (net : Nat → NetOutcome) (ct0 b0 ct1 b1 ct2 body2 : Str) (r v : Json),
      net 0 = .resp 503 ct0 b0 → net 1 = .resp 503 ct1 b1 →
      net 2 = .resp 200 ct2 body2 →
      parseSseResponse lib { contentType := ct2, body := body2 } = .ok r →
      extractToolResult lib r = .ok v →
      call_tool lib st n net = { requests := 3, sleeps := [1, 1], result := .ok v }) ∧
    (∀ (net : Nat → NetOutcome) (c0 c1 c2 : Nat) (t0 b0 t1 b1 t2 b2 : Str),
      net 0 = .resp c0 t0 b0 → net 1 = .resp c1 t1 b1 → net 2 = .resp c2 t2 b2 →
      (c0 = 502 ∨ c0 = 503 ∨ c0 = 504) → (c1 = 502 ∨ c1 = 503 ∨ c1 = 504) →
      (c2 = 502 ∨ c2 = 503 ∨ c2 = 504) →
      call_tool lib st n net =
        { requests := 3, sleeps := [1, 1], result := .error (.serverError c2 b2) }) := by
  constructor
  · intro net ct0 b0 ct1 b1 ct2 body2 r v hn0 hn1 hn2 hp hx
    simp only [call_tool, hLookup, hConn]
    show callLoop lib net 0 (2 + 1) none 0 [] = _
    simp [callLoop, hn0, hn1, hn2, hp, hx, MCP_MAX_RETRIES, MCP_RETRY_DELAY_SECONDS]
  · intro net c0 c1 c2 t0 b0 t1 b1 t2 b2 hn0 hn1 hn2 hc0 hc1 hc2
    simp only [call_tool, hLookup, hConn]
    show callLoop lib net 0 (2 + 1) none 0 [] = _
    rcases hc0 with rfl | rfl | rfl <;> rcases hc1 with rfl | rfl | rfl <;>
      rcases hc2 with rfl | rfl | rfl <;>
        simp [callLoop, hn0, hn1, hn2, MCP_MAX_RETRIES, MCP_RETRY_DELAY_SECONDS]

/-- Witness for C3: the 503-503-200 script on the demo state returns the
string `sent` on the third attempt, and the all-503 script fails with the
last 503 after three attempts. -/
theorem call_tool_retry_boundary_witness :
    call_tool demoLib demoState ("do_it".data) demoNetRetry =
      { requests := 3, sleeps := [1, 1], result := .ok (Json.str ("sent".data)) } ∧
    call_tool demoLib demoState ("do_it".data) demoNet503 =
      { requests := 3, sleeps := [1, 1]
        result := .error (.serverError 503 ("busy".data)) } :=
  ⟨(call_tool_retry_boundary demoLib demoState ("do_it".data) demoTool demoConn
      rfl rfl).1 demoNetRetry [] [] [] [] ("application/json".data) demoCallBody
      demoCallJson (Json.str ("sent".data)) rfl rfl rfl rfl rfl,
   (call_tool_retry_boundary demoLib demoState ("do_it".data) demoTool demoConn
      rfl rfl).2 demoNet503 503 503 503 [] ("busy".data) [] ("busy".data) []
      ("busy".data) rfl rfl rfl (by decide) (by decide) (by decide)⟩

/-! ## C4 — what is retried and what raises at once -/

/-- **C4 counterexample**: a server answering 404 on the first attempt.  The
claim says every non-200 status other than 502/503/504 is retried under the
same cap (3 attempts); the source's `else` branch (lines 579-582) raises a
generic `Exception` immediately, which no `except` clause of the loop
catches, so the call fails after exactly one attempt with no sleeps. -/
theorem call_tool_404_not_retried :
    call_tool demoLib demoState ("do_it".data) demoNet404 =
      { requests := 1, sleeps := []
        result := .error (.callFailed 404 ("nope".data)) } := by
  rfl

/-- **C4 amended**: transport-level exceptions — timeouts and connection
errors — are retried under the same cap as the 502/503/504 statuses, and
after the retry budget is exhausted the last encountered error is raised;
any other non-200 HTTP status is not retried: `call_tool` raises immediately
on its first occurrence. -/
theorem call_tool_error_policy (lib : Stdlib) (st : ServiceState) (n : Str)
    (tool : MCPToolDefinition) (conn : MCPServerConnection)
    (hLookup : dictLookup st.tools_by_name (Json.str n) = some tool)
    (hConn : st.connected_servers.find? (fun c => c.url == tool.server_url) = some conn) :
    (∀ net : Nat → NetOutcome, (∀ i, i < 3 → net i = .timeout) →
      call_tool lib st n net =
        { requests := 3, sleeps := [1, 1], result := .error .timeoutErr }) ∧
    (∀ net : Nat → NetOutcome, (∀ i, i < 3 → net i = .clientError) →
      call_tool lib st n net =
        { requests := 3, sleeps := [1, 1], result := .error .clientErr }) ∧
    (∀ (net : Nat → NetOutcome) (c : Nat) (ct b : Str),
      net 0 = .resp c ct b → c ≠ 200 → c ≠ 502 → c ≠ 503 → c ≠ 504 →
      call_tool lib st n net =
        { requests := 1, sleeps := [], result := .error (.callFailed c b) }) := by
  refine ⟨fun net h => ?_, fun net h => ?_, fun net c ct b hn0 h200 h502 h503 h504 => ?_⟩ <;>
    simp only [call_tool, hLookup, hConn]
  · show callLoop lib net 0 (2 + 1) none 0 [] = _
    simp [callLoop, h 0 (by norm_num), h 1 (by norm_num), h 2 (by norm_num),
      MCP_MAX_RETRIES, MCP_RETRY_DELAY_SECONDS]
  · show callLoop lib net 0 (2 + 1) none 0 [] = _
    simp [callLoop, h 0 (by norm_num), h 1 (by norm_num), h 2 (by norm_num),
      MCP_MAX_RETRIES, MCP_RETRY_DELAY_SECONDS]
  · show callLoop lib net 0 (2 + 1) none 0 [] = _
    simp [callLoop, hn0, h200, h502, h503, h504, MCP_MAX_RETRIES]

/-- Witness for the amended C4: the always-timeout script fails with the
timeout error after three attempts, and the 404 script raises at once. -/
theorem call_tool_error_policy_witness :
    call_tool demoLib demoState ("do_it".data) demoNetTimeout =
      { requests := 3, sleeps := [1, 1], result := .error .timeoutErr } ∧
    call_tool demoLib demoState ("do_it".data) demoNet404 =
      { requests := 1, sleeps := []
        result := .error (.callFailed 404 ("nope".data)) } :=
  ⟨(call_tool_error_policy demoLib demoState ("do_it".data) demoTool demoConn
      rfl rfl).1 demoNetTimeout (fun _ _ => rfl),
   (call_tool_error_policy demoLib demoState ("do_it".data) demoTool demoConn
      rfl rfl).2.2 demoNet404 404 [] ("nope".data) rfl (by decide) (by decide)
      (by decide) (by decide)⟩

/-! ## C8 — connection headers and the local-server test -/

/-- **C8 counterexample**: the URL `https://localhost:8080/mcp` has host
`localhost`, so by the claim the client should connect to it without an
`Authorization` header.  The source's `is_local` test (line 336) is the
scheme-sensitive prefix check `url.startswith("http://localhost")`, which
this URL fails; with an empty token the connection attempt is therefore
skipped entirely (`None`, zero requests) instead of being made without an
`Authorization` header. -/
theorem connect_https_localhost_not_local :
    isLocalUrl ("https://localhost:8080/mcp".data) = false ∧
    connectToServer demoLib ("srv".data) ("https://localhost:8080/mcp".data) []
        (.resp 200 ("application/json".data) demoCallBody) =
      { conn := none, headersBuilt := none, requests := 0 } := by
  constructor <;> rfl

/-- **C8 amended**: for every server connection attempt, if the url starts
with `http://localhost` or `http://127.0.0.1` (a scheme-sensitive prefix
check, not a host comparison), the client connects without an `Authorization`
header — the headers it builds contain only `Content-Type` — regardless of
the token; otherwise, if the auth token is empty, the attempt returns null
with no network access; otherwise the built headers are exactly
`Authorization: Bearer <token>`, the descriptive `User-Agent`, and
`Content-Type: application/json`, and the request is made. -/
theorem connect_to_server_headers (lib : Stdlib) (name url tok : Str)
    (outcome : NetOutcome) :
    (isLocalUrl url = true →
      (connectToServer lib name url tok outcome).headersBuilt =
        some [(("Content-Type".data), ("application/json".data))] ∧
      (connectToServer lib name url tok outcome).requests = 1) ∧
    (isLocalUrl url = false → tok = [] →
      connectToServer lib name url tok outcome =
        { conn := none, headersBuilt := none, requests := 0 }) ∧
    (isLocalUrl url = false → tok ≠ [] →
      (connectToServer lib name url tok outcome).headersBuilt =
        some [(authorizationHeaderName, bearerTokenScheme ++ ' ' :: tok),
              (("User-Agent".data), claudeUserAgent),
              (("Content-Type".data), ("application/json".data))] ∧
      (connectToServer lib name url tok outcome).requests = 1) := by
  refine ⟨fun hloc => ?_, fun hloc htok => ?_, fun hloc htok => ?_⟩
  · unfold connectToServer
    rw [hloc]
    cases listServerTools lib url name outcome <;> simp
  · simp [connectToServer, hloc, htok]
  · unfold connectToServer
    rw [hloc]
    simp only [Bool.false_eq_true, if_false]
    rw [if_neg (by simp [List.isEmpty_iff, htok])]
    cases listServerTools lib url name outcome <;> simp

/-- Witness for the amended C8: a remote URL with a non-empty token builds
the bearer headers; the same URL with an empty token is skipped without any
request. -/
theorem connect_to_server_headers_witness :
    ((connectToServer demoLib ("srv".data) ("https://one.example/mcp".data)
        ("tok".data) NetOutcome.timeout).headersBuilt =
      some [(authorizationHeaderName, bearerTokenScheme ++ ' ' :: ("tok".data)),
            (("User-Agent".data), claudeUserAgent),
            (("Content-Type".data), ("application/json".data))] ∧
     (connectToServer demoLib ("srv".data) ("https://one.example/mcp".data)
        ("tok".data) NetOutcome.timeout).requests = 1) ∧
    connectToServer demoLib ("srv".data) ("https://one.example/mcp".data) []
        NetOutcome.timeout =
      { conn := none, headersBuilt := none, requests := 0 } :=
  ⟨(connect_to_server_headers demoLib ("srv".data)
      ("https://one.example/mcp".data) ("tok".data) NetOutcome.timeout).2.2
      (by decide) (by decide),
   (connect_to_server_headers demoLib ("srv".data)
      ("https://one.example/mcp".data) [] NetOutcome.timeout).2.1
      (by decide) rfl⟩

/-! ## Discovery-loop helper lemmas -/

theorem connectLoop_cons_some (lib : Stdlib) (tok : Str) (net : Nat → NetOutcome)
    (c : SrvConfig) (rest : List SrvConfig) (i : Nat) (st : ServiceState)
    (conn : MCPServerConnection)
    (h : (connectToServer lib c.name c.url tok (net i)).conn = some conn)
    (hcn : conn.connected = true) :
    connectLoop lib tok net (c :: rest) i st =
      (conn.tools ++ (connectLoop lib tok net rest (i + 1) (stAfter st conn)).1,
       (connectLoop lib tok net rest (i + 1) (stAfter st conn)).2) := by
  rcases he : connectLoop lib tok net rest (i + 1) (stAfter st conn) with ⟨ts, st2⟩
  simp [connectLoop, h, hcn, he]

theorem connectLoop_cons_none (lib : Stdlib) (tok : Str) (net : Nat → NetOutcome)
    (c : SrvConfig) (rest : List SrvConfig) (i : Nat) (st : ServiceState)
    (h : (connectToServer lib c.name c.url tok (net i)).conn = none) :
    connectLoop lib tok net (c :: rest) i st =
      connectLoop lib tok net rest (i + 1) st := by
  simp [connectLoop, h]

/-! ## C7 — discovery never raises -/

/-- **C7**: `discover_and_connect_servers` never raises.  A failed (or empty)
configuration-service lookup falls back to the local manifest; when the
manifest also yields no servers — missing, unreadable or empty — the call
returns the empty sequence over the unchanged state instead of raising; and a
failure to connect to an individual server merely skips that server, never
aborting the rest of the pass.  (In this embedding every exception a
sub-operation can raise is an explicit environment value; the theorem shows
each one is absorbed, so no error escapes `discoverAndConnectServers`.) -/
theorem discovery_error_policy :
    (∀ (lib : Stdlib) (env : DiscoveryEnv) (p : Option Str) (st0 : ServiceState),
      env.sdk = .error () →
      discoverAndConnectServers lib env p st0 =
        connectLoop lib (resolveAuthToken env p) env.net
          (loadManifestServersFallback env.manifest) 0 st0) ∧
    (∀ (lib : Stdlib) (env : DiscoveryEnv) (p : Option Str) (st0 : ServiceState)
       (cs : List SdkConfig),
      env.sdk = .ok cs → sdkConfigEntries env.platformEndpoint cs = [] →
      discoverAndConnectServers lib env p st0 =
        connectLoop lib (resolveAuthToken env p) env.net
          (loadManifestServersFallback env.manifest) 0 st0) ∧
    (loadManifestServersFallback .missing = [] ∧
     loadManifestServersFallback .unreadable = []) ∧
    (∀ (lib : Stdlib) (env : DiscoveryEnv) (p : Option Str) (st0 : ServiceState),
      (env.sdk = .error () ∨
        ∃ cs, env.sdk = .ok cs ∧ sdkConfigEntries env.platformEndpoint cs = []) →
      loadManifestServersFallback env.manifest = [] →
      discoverAndConnectServers lib env p st0 = ([], st0)) ∧
    (∀ (lib : Stdlib) (tok : Str) (net : Nat → NetOutcome) (c : SrvConfig)
       (rest : List SrvConfig) (i : Nat) (st : ServiceState),
      (connectToServer lib c.name c.url tok (net i)).conn = none →
      connectLoop lib tok net (c :: rest) i st =
        connectLoop lib tok net rest (i + 1) st) := by
  refine ⟨fun lib env p st0 h => ?_, fun lib env p st0 cs h h2 => ?_, ⟨rfl, rfl⟩,
    fun lib env p st0 h hm => ?_, connectLoop_cons_none⟩
  · simp [discoverAndConnectServers, h]
  · simp [discoverAndConnectServers, h, h2]
  · rcases h with h | ⟨cs, h, h2⟩
    · simp [discoverAndConnectServers, h, hm, connectLoop]
    · simp [discoverAndConnectServers, h, h2, hm, connectLoop]

/-- Witness for C7: with a raising configuration service and no manifest
file, discovery returns the empty tool list over the untouched fresh
state. -/
theorem discovery_error_policy_witness :
    discoverAndConnectServers demoLib c7env none initialState = ([], initialState) :=
  discovery_error_policy.2.2.2.1 demoLib c7env none initialState (Or.inl rfl) rfl

/-! ## C6 — name collision: last writer wins in the index -/

/-- **C6**: when two connected servers each expose a tool of the same name,
the discovery pass leaves exactly one index entry for that name, bound to the
definition from the server processed last in discovery order, while the
returned flat tool list still contains both definitions. -/
theorem discovery_name_collision (lib : Stdlib) (n : Str) (d1 s1 d2 s2 : Json)
    (b1 b2 : Str)
    (h1 : lib.loads b1 = some (listToolsRpc n d1 s1))
    (h2 : lib.loads b2 = some (listToolsRpc n d2 s2)) :
    discoverAndConnectServers lib (c6env b1 b2) (some ("tok".data)) initialState =
      ([c6tool1 n d1 s1, c6tool2 n d2 s2],
       { connected_servers := [c6conn1 n d1 s1, c6conn2 n d2 s2]
         tools_by_name := [(Json.str n, c6tool2 n d2 s2)] }) ∧
    dictLookup (discoverAndConnectServers lib (c6env b1 b2) (some ("tok".data))
        initialState).2.tools_by_name (Json.str n) = some (c6tool2 n d2 s2) ∧
    ((discoverAndConnectServers lib (c6env b1 b2) (some ("tok".data))
        initialState).2.tools_by_name.filter
          (fun pr => Json.beq pr.1 (Json.str n))).length = 1 := by
  have hbeq : Json.beq (Json.str n) (Json.str n) = true := by simp [Json.beq]
  have hp1 : parseSseResponse lib
      { contentType := ("application/json".data), body := b1 } =
      .ok (listToolsRpc n d1 s1) := by
    simp +decide [parseSseResponse, h1]
  have hp2 : parseSseResponse lib
      { contentType := ("application/json".data), body := b2 } =
      .ok (listToolsRpc n d2 s2) := by
    simp +decide [parseSseResponse, h2]
  have hl1 : listServerTools lib c6url1 ("S1".data)
      (NetOutcome.resp 200 ("application/json".data) b1) = .ok [c6tool1 n d1 s1] := by
    simp +decide [listServerTools, hp1, listToolsRpc, pyDictGet, pyIter, toolDefsOf,
      c6tool1, List.find?]
  have hl2 : listServerTools lib c6url2 ("S2".data)
      (NetOutcome.resp 200 ("application/json".data) b2) = .ok [c6tool2 n d2 s2] := by
    simp +decide [listServerTools, hp2, listToolsRpc, pyDictGet, pyIter, toolDefsOf,
      c6tool2, List.find?]
  have hc1 : connectToServer lib ("S1".data) c6url1 ("tok".data)
      (NetOutcome.resp 200 ("application/json".data) b1) =
      { conn := some (c6conn1 n d1 s1), headersBuilt := some c6headers
        requests := 1 } := by
    simp +decide [connectToServer, hl1, c6conn1, c6tool1, c6headers,
      authorizationHeaderName, bearerTokenScheme, claudeUserAgent]
  have hc2 : connectToServer lib ("S2".data) c6url2 ("tok".data)
      (NetOutcome.resp 200 ("application/json".data) b2) =
      { conn := some (c6conn2 n d2 s2), headersBuilt := some c6headers
        requests := 1 } := by
    simp +decide [connectToServer, hl2, c6conn2, c6tool2, c6headers,
      authorizationHeaderName, bearerTokenScheme, claudeUserAgent]
  have e1 := connectLoop_cons_some lib ("tok".data) (c6env b1 b2).net
    ⟨("S1".data), c6url1⟩ [⟨("S2".data), c6url2⟩] 0 initialState (c6conn1 n d1 s1)
    (by
      rw [show (c6env b1 b2).net 0 =
        NetOutcome.resp 200 ("application/json".data) b1 from rfl]
      simp [hc1])
    rfl
  have e2 := connectLoop_cons_some lib ("tok".data) (c6env b1 b2).net
    ⟨("S2".data), c6url2⟩ [] 1 (stAfter initialState (c6conn1 n d1 s1))
    (c6conn2 n d2 s2)
    (by
      rw [show (c6env b1 b2).net 1 =
        NetOutcome.resp 200 ("application/json".data) b2 from rfl]
      simp [hc2])
    rfl
  have hmain : discoverAndConnectServers lib (c6env b1 b2) (some ("tok".data))
      initialState =
      ([c6tool1 n d1 s1, c6tool2 n d2 s2],
       { connected_servers := [c6conn1 n d1 s1, c6conn2 n d2 s2]
         tools_by_name := [(Json.str n, c6tool2 n d2 s2)] }) := by
    rw [show discoverAndConnectServers lib (c6env b1 b2) (some ("tok".data))
        initialState =
      connectLoop lib ("tok".data) (c6env b1 b2).net
        [⟨("S1".data), c6url1⟩, ⟨("S2".data), c6url2⟩] 0 initialState from rfl]
    rw [e1, e2]
    simp [connectLoop, stAfter, dictInsert, c6conn1, c6conn2, c6tool1, c6tool2,
      hbeq, initialState]
  refine ⟨hmain, ?_, ?_⟩
  · rw [hmain]
    simp [dictLookup, hbeq]
  · rw [hmain]
    simp [hbeq]

/-- Witness for C6: concrete listings both exposing the tool `search`. -/
theorem discovery_name_collision_witness :
    discoverAndConnectServers c6lib (c6env c6body1 c6body2) (some ("tok".data))
        initialState =
      ([c6tool1 ("search".data) (Json.str ("one".data)) (Json.obj []),
        c6tool2 ("search".data) (Json.str ("two".data)) (Json.obj [])],
       { connected_servers :=
           [c6conn1 ("search".data) (Json.str ("one".data)) (Json.obj []),
            c6conn2 ("search".data) (Json.str ("two".data)) (Json.obj [])]
         tools_by_name :=
           [(Json.str ("search".data),
             c6tool2 ("search".data) (Json.str ("two".data)) (Json.obj []))] }) :=
  (discovery_name_collision c6lib ("search".data) (Json.str ("one".data))
    (Json.obj []) (Json.str ("two".data)) (Json.obj []) c6body1 c6body2 rfl rfl).1

/-! ## C10 — every indexed tool has a live connection -/

theorem toolDefsOf_server_url (u nm : Str) :
    ∀ (items : List Json) (ts : List MCPToolDefinition),
      toolDefsOf u nm items = .ok ts → ∀ t ∈ ts, t.server_url = u := by
  intro items
  induction items with
  | nil =>
    intro ts h t ht
    simp only [toolDefsOf] at h
    cases h
    simp at ht
  | cons td rest ih =>
    intro ts h t ht
    cases td <;> simp only [toolDefsOf] at h <;> try cases h
    cases hrec : toolDefsOf u nm rest with
    | ok tools =>
      rw [hrec] at h
      cases h
      rcases List.mem_cons.mp ht with rfl | hmem
      · rfl
      · exact ih tools hrec t hmem
    | error e =>
      rw [hrec] at h
      cases h

theorem listServerTools_server_url (lib : Stdlib) (u nm : Str) (o : NetOutcome)
    (ts : List MCPToolDefinition) (h : listServerTools lib u nm o = .ok ts) :
    ∀ t ∈ ts, t.server_url = u := by
  unfold listServerTools at h
  split at h
  · cases h
  · cases h
  · split at h
    · split at h
      · cases h
      · split at h
        · cases h
        · split at h
          · cases h
          · split at h
            · cases h
            · exact toolDefsOf_server_url u nm _ ts h
    · cases h

theorem connectToServer_conn (lib : Stdlib) (nm url tok : Str) (o : NetOutcome)
    (conn : MCPServerConnection)
    (h : (connectToServer lib nm url tok o).conn = some conn) :
    conn.url = url ∧ conn.connected = true ∧
      ∀ t ∈ conn.tools, t.server_url = url := by
  unfold connectToServer at h
  split at h
  · split at h <;> rename_i heq <;> simp at h
    subst h
    exact ⟨rfl, rfl, listServerTools_server_url lib url nm o _ heq⟩
  · split at h
    · simp at h
    · split at h <;> rename_i heq <;> simp at h
      subst h
      exact ⟨rfl, rfl, listServerTools_server_url lib url nm o _ heq⟩

theorem foldl_dictInsert_values (P : MCPToolDefinition → Prop) :
    ∀ (ts : List MCPToolDefinition) (d : List (Json × MCPToolDefinition)),
      (∀ pr ∈ d, P pr.2) → (∀ t ∈ ts, P t) →
      ∀ pr ∈ ts.foldl (fun d t => dictInsert d t.name t) d, P pr.2 := by
  intro ts
  induction ts with
  | nil =>
    intro d hd _ pr hpr
    exact hd pr hpr
  | cons t rest ih =>
    intro d hd hts pr hpr
    simp only [List.foldl_cons] at hpr
    refine ih (dictInsert d t.name t) ?_
      (fun x hx => hts x (List.mem_cons_of_mem t hx)) pr hpr
    intro q hq
    unfold dictInsert at hq
    split at hq
    · rcases List.mem_map.mp hq with ⟨pq, hpq, hmap⟩
      by_cases hb : Json.beq pq.1 t.name = true
      · rw [if_pos hb] at hmap
        rw [← hmap]
        exact hts t (List.mem_cons_self t rest)
      · rw [if_neg hb] at hmap
        rw [← hmap]
        exact hd pq hpq
    · rcases List.mem_append.mp hq with hq | hq
      · exact hd q hq
      · rw [List.mem_singleton.mp hq]
        exact hts t (List.mem_cons_self t rest)

theorem connectLoop_inv (lib : Stdlib) (tok : Str) (net : Nat → NetOutcome) :
    ∀ (cfgs : List SrvConfig) (i : Nat) (st : ServiceState),
      stateUrlInv st → stateUrlInv (connectLoop lib tok net cfgs i st).2 := by
  intro cfgs
  induction cfgs with
  | nil =>
    intro i st h
    exact h
  | cons c rest ih =>
    intro i st h
    cases hc : (connectToServer lib c.name c.url tok (net i)).conn with
    | none =>
      rw [connectLoop_cons_none lib tok net c rest i st hc]
      exact ih _ _ h
    | some conn =>
      obtain ⟨hurl, hcn, htools⟩ := connectToServer_conn lib c.name c.url tok _ conn hc
      rw [connectLoop_cons_some lib tok net c rest i st conn hc hcn]
      refine ih _ _ ?_
      intro pr hpr
      refine foldl_dictInsert_values
        (fun td => ∃ c' ∈ st.connected_servers ++ [conn], c'.url = td.server_url)
        conn.tools st.tools_by_name ?_ ?_ pr hpr
      · intro q hq
        obtain ⟨c', hc', hu⟩ := h q hq
        exact ⟨c', List.mem_append_left _ hc', hu⟩
      · intro t ht
        exact ⟨conn, List.mem_append_right _ (List.mem_singleton.mpr rfl),
          hurl.trans (htools t ht).symm⟩

theorem extractToolResult_ne_noConnection (lib : Stdlib) (r : Json) (nm : Str) :
    extractToolResult lib r ≠ .error (.noConnection nm) := by
  simp only [extractToolResult]
  repeat' split
  all_goals simp

theorem callLoop_requests_ge (lib : Stdlib) (net : Nat → NetOutcome) :
    ∀ (fuel attempt : Nat) (le : Option CallErr) (reqs : Nat) (sleeps : List Nat),
      0 < fuel → reqs + 1 ≤ (callLoop lib net attempt fuel le reqs sleeps).requests := by
  intro fuel
  induction fuel with
  | zero =>
    intro _ _ _ _ h
    omega
  | succ f ih =>
    intro attempt le reqs sleeps _
    have step : ∀ (le2 : Option CallErr) (sl2 : List Nat),
        reqs + 1 ≤ (callLoop lib net (attempt + 1) f le2 (reqs + 1) sl2).requests := by
      intro le2 sl2
      cases f with
      | zero => simp [callLoop]
      | succ f2 => exact le_trans (by omega) (ih (attempt + 1) le2 (reqs + 1) sl2 (by omega))
    simp only [callLoop]
    split
    · split
      · split
        · simp
        · split <;> simp
      · split
        · split
          · exact step _ _
          · exact step _ _
        · simp
    · split
      · exact step _ _
      · exact step _ _
    · split
      · exact step _ _
      · exact step _ _

theorem callLoop_result_ne_noConnection (lib : Stdlib) (net : Nat → NetOutcome)
    (nm : Str) :
    ∀ (fuel attempt : Nat) (le : Option CallErr) (reqs : Nat) (sleeps : List Nat),
      (∀ s, le ≠ some (CallErr.noConnection s)) →
      (callLoop lib net attempt fuel le reqs sleeps).result ≠
        .error (.noConnection nm) := by
  intro fuel
  induction fuel with
  | zero =>
    intro attempt le reqs sleeps hle
    cases le with
    | none => simp [callLoop]
    | some e =>
      simp only [callLoop, Option.getD_some]
      intro hcontra
      cases hcontra
      exact hle nm rfl
  | succ f ih =>
    intro attempt le reqs sleeps hle
    have step : ∀ (e : CallErr) (sl2 : List Nat),
        (∀ s, e ≠ CallErr.noConnection s) →
        (callLoop lib net (attempt + 1) f (some e) (reqs + 1) sl2).result ≠
          .error (.noConnection nm) := by
      intro e sl2 he
      exact ih (attempt + 1) (some e) (reqs + 1) sl2
        (fun s hs => he s (by injection hs))
    simp only [callLoop]
    split
    · split
      · split
        · simp
        · split
          · rename_i e hx
            intro hcontra
            simp only at hcontra
            cases hcontra
            exact extractToolResult_ne_noConnection lib _ nm hx
          · simp
      · split
        · split
          · exact step _ _ (fun s => by simp)
          · exact step _ _ (fun s => by simp)
        · simp
    · split
      · exact step _ _ (fun s => by simp)
      · exact step _ _ (fun s => by simp)
    · split
      · exact step _ _ (fun s => by simp)
      · exact step _ _ (fun s => by simp)

/-- **C10**: after one discovery pass on a freshly constructed service, every
tool in the `tools by name` index carries the `server_url` of some recorded
connection; consequently `call_tool` on any indexed name never takes the
`"No connection found"` `ValueError` branch and always issues at least one
network request. -/
theorem discovery_index_always_connected (lib : Stdlib) (env : DiscoveryEnv)
    (p : Option Str) :
    stateUrlInv (discoverAndConnectServers lib env p initialState).2 ∧
    (∀ (nm : Str) (net : Nat → NetOutcome),
      (dictLookup (discoverAndConnectServers lib env p initialState).2.tools_by_name
          (Json.str nm)).isSome = true →
      1 ≤ (call_tool lib (discoverAndConnectServers lib env p initialState).2
            nm net).requests ∧
      (call_tool lib (discoverAndConnectServers lib env p initialState).2
          nm net).result ≠ .error (.noConnection nm)) := by
  have hinv : stateUrlInv (discoverAndConnectServers lib env p initialState).2 := by
    unfold discoverAndConnectServers
    apply connectLoop_inv
    intro pr hpr
    simp [initialState] at hpr
  refine ⟨hinv, fun nm net hsome => ?_⟩
  cases hlk : dictLookup
      (discoverAndConnectServers lib env p initialState).2.tools_by_name
      (Json.str nm) with
  | none =>
    rw [hlk] at hsome
    simp at hsome
  | some tool =>
    obtain ⟨pr, hfind, hsnd⟩ := Option.map_eq_some'.mp hlk
    have hprmem := List.mem_of_find?_eq_some hfind
    obtain ⟨c, hcmem, hcurl⟩ := hinv pr hprmem
    have hfc : ((discoverAndConnectServers lib env p initialState).2.connected_servers.find?
        (fun cn => cn.url == tool.server_url)).isSome := by
      refine List.find?_isSome.mpr ⟨c, hcmem, ?_⟩
      simp [hcurl, hsnd]
    obtain ⟨cn, hcn⟩ := Option.isSome_iff_exists.mp hfc
    have hcall : call_tool lib (discoverAndConnectServers lib env p initialState).2
        nm net = callLoop lib net 0 (MCP_MAX_RETRIES + 1) none 0 [] := by
      unfold call_tool
      rw [hlk]
      simp only [hcn]
    rw [hcall]
    constructor
    · exact callLoop_requests_ge lib net (MCP_MAX_RETRIES + 1) 0 none 0 [] (by simp)
    · exact callLoop_result_ne_noConnection lib net nm (MCP_MAX_RETRIES + 1) 0 none 0 []
        (fun s => by simp)

/-- Witness for C10 on the concrete collision environment: the `search` tool
is indexed after discovery, and calling it issues a request and never hits the
no-connection branch. -/
theorem discovery_index_always_connected_witness :
    1 ≤ (call_tool c6lib
          (discoverAndConnectServers c6lib (c6env c6body1 c6body2)
            (some ("tok".data)) initialState).2 ("search".data)
          demoNetTimeout).requests ∧
    (call_tool c6lib
        (discoverAndConnectServers c6lib (c6env c6body1 c6body2)
          (some ("tok".data)) initialState).2 ("search".data)
        demoNetTimeout).result ≠ .error (.noConnection ("search".data)) :=
  (discovery_index_always_connected c6lib (c6env c6body1 c6body2)
    (some ("tok".data))).2 ("search".data) demoNetTimeout (by decide)

end A365
